import Mathlib

/-!
Shallow embedding of `png_handle_tRNS` from
`src/seed-gen/src/buttercup/seed_gen/mock_context/libpng-exemplar/function_png_handle_tRNS.c`
(extracted from libpng's `pngrutil.c`), together with models of the
collaborators it calls (`png_crc_read`, `png_crc_finish`, `png_get_uint_16`,
`png_set_tRNS`, `png_chunk_error`, `png_chunk_benign_error`), which are not
part of the extracted source and are therefore modelled from the spec.

Machine integers are modelled as `Nat`; the one place the C code truncates
(the `(png_uint_16)length` cast when committing the palette transparency
count) is modelled with an explicit `% 65536`.
-/

/-- Mode flag set once the IHDR (header) chunk has been seen (libpng `PNG_HAVE_IHDR`). -/
def PNG_HAVE_IHDR : Nat := 1

/-- Mode flag set once the PLTE (palette) chunk has been seen (libpng `PNG_HAVE_PLTE`). -/
def PNG_HAVE_PLTE : Nat := 2

/-- Mode flag set once IDAT (image data) chunks have begun (libpng `PNG_HAVE_IDAT`). -/
def PNG_HAVE_IDAT : Nat := 4

/-- Color type constant for grayscale images (libpng `PNG_COLOR_TYPE_GRAY`). -/
def PNG_COLOR_TYPE_GRAY : Nat := 0

/-- Color type constant for RGB images (libpng `PNG_COLOR_TYPE_RGB`). -/
def PNG_COLOR_TYPE_RGB : Nat := 2

/-- Color type constant for palette-indexed images (libpng `PNG_COLOR_TYPE_PALETTE`). -/
def PNG_COLOR_TYPE_PALETTE : Nat := 3

/-- Color type constant for gray-with-alpha images (libpng `PNG_COLOR_TYPE_GRAY_ALPHA`). -/
def PNG_COLOR_TYPE_GRAY_ALPHA : Nat := 4

/-- Color type constant for RGB-with-alpha images (libpng `PNG_COLOR_TYPE_RGB_ALPHA`). -/
def PNG_COLOR_TYPE_RGB_ALPHA : Nat := 6

/-- Maximum number of palette entries (libpng `PNG_MAX_PALETTE_LENGTH`, spec `MAX_PALETTE_ENTRIES`). -/
def PNG_MAX_PALETTE_LENGTH : Nat := 256

/-- The `png_color_16` transparency color stored in the session state
(fields used by the handler: `gray`, `red`, `green`, `blue`). -/
structure TransColor where
  red : Nat
  green : Nat
  blue : Nat
  gray : Nat
deriving DecidableEq, Repr

/-- The fields of libpng's `png_struct` that `png_handle_tRNS` reads or writes:
`mode` (bit flags), `color_type`, `num_palette`, `num_trans`, `trans_color`.
This is the spec's `ImageState`. -/
structure PngStruct where
  mode : Nat
  color_type : Nat
  num_palette : Nat
  num_trans : Nat
  trans_color : TransColor
deriving DecidableEq, Repr

/-- The fields of libpng's `png_info` relevant to the tRNS handler: the
`PNG_INFO_tRNS` bit of `valid`, the committed alpha sequence and count, and
the committed transparency color. This is the spec's `InfoRecord`. -/
structure PngInfo where
  valid_tRNS : Bool
  num_trans : Nat
  trans_alpha : List Nat
  trans_color : TransColor
deriving DecidableEq, Repr

/-- Modelled from the spec: the `ChunkCursor` collaborator — the chunk's
remaining payload bytes plus the verdict of the chunk's CRC check
(`finish_and_verify_checksum`). The framing layer supplies exactly the
declared number of payload bytes. -/
structure ChunkCursor where
  bytes : List Nat
  crcOk : Bool
deriving DecidableEq, Repr

/-- Outcome of one `png_handle_tRNS` call: the session state, the info record,
the cursor after all reads/drains, and the terminal result. -/
inductive TrnsResult where
  | ok : TrnsResult
  | fatalError (msg : String) : TrnsResult
  | benignError (msg : String) : TrnsResult
deriving DecidableEq, Repr

/-- The full observable outcome of a `png_handle_tRNS` call. -/
structure HandleOutcome where
  png_ptr : PngStruct
  info_ptr : Option PngInfo
  cursor : ChunkCursor
  result : TrnsResult
deriving DecidableEq, Repr

/-- Modelled from the spec: the byte-consuming effect of `png_crc_finish`
(not in the extracted source) — it drains `skip` remaining chunk bytes
through the cursor. -/
def png_crc_finish_cursor (c : ChunkCursor) (skip : Nat) : ChunkCursor :=
  { c with bytes := c.bytes.drop skip }

/-- Modelled from the spec: the return value of `png_crc_finish` (not in the
extracted source) — nonzero (here `true`) exactly when the chunk's CRC check
fails. -/
def png_crc_finish_err (c : ChunkCursor) : Bool :=
  !c.crcOk

/-- Modelled from the spec: the bytes delivered by `png_crc_read` (not in the
extracted source) — the next `n` payload bytes, in order. -/
def png_crc_read_buf (c : ChunkCursor) (n : Nat) : List Nat :=
  c.bytes.take n

/-- Modelled from the spec: the cursor after `png_crc_read` (not in the
extracted source) has consumed `n` payload bytes. -/
def png_crc_read_cursor (c : ChunkCursor) (n : Nat) : ChunkCursor :=
  { c with bytes := c.bytes.drop n }

/-- Modelled from the spec: `png_get_uint_16` (not in the extracted source)
reads a big-endian unsigned 16-bit value from the front of a buffer. -/
def png_get_uint_16 (buf : List Nat) : Nat :=
  buf.getD 0 0 * 256 + buf.getD 1 0

/-- The `info_ptr != NULL && (info_ptr->valid & PNG_INFO_tRNS) != 0` test of
the duplicate-chunk precondition. -/
def trns_duplicate : Option PngInfo → Bool
  | none => false
  | some i => i.valid_tRNS

/-- Modelled from the spec: `png_set_tRNS` (not in the extracted source)
commits the decoded transparency into the info record — it deep-copies
`num_trans` alpha bytes and the transparency color and sets the
`PNG_INFO_tRNS` valid bit; with a null info record it does nothing. -/
def png_set_tRNS (info : Option PngInfo) (trans_alpha : List Nat)
    (num_trans : Nat) (trans_color : TransColor) : Option PngInfo :=
  match info with
  | none => none
  | some i =>
      some { i with
        valid_tRNS := true
        num_trans := num_trans
        trans_alpha := trans_alpha.take num_trans
        trans_color := trans_color }

/-- The common tail of `png_handle_tRNS` after a successful mode-specific
decode: `png_crc_finish(png_ptr, 0)` gates the commit — on CRC failure
`num_trans` is reset to 0 and the handler returns (libpng reports the CRC
failure as a benign chunk error), otherwise `png_set_tRNS` commits.
`png1` is the session state already mutated by the decode; `readbuf` is the
scratch buffer (filled only in the palette branch). -/
def trns_commit_tail (png1 : PngStruct) (info : Option PngInfo)
    (readbuf : List Nat) (c : ChunkCursor) : HandleOutcome :=
  let c1 := png_crc_finish_cursor c 0
  if png_crc_finish_err c then
    ⟨{ png1 with num_trans := 0 }, info, c1, .benignError "CRC error"⟩
  else
    ⟨png1, png_set_tRNS info readbuf png1.num_trans png1.trans_color, c1, .ok⟩

/-- Embedding of `png_handle_tRNS` (the extracted source, translated branch
for branch). `png_chunk_error` (not in the extracted source) is modelled from
the spec as a fatal, non-returning abort: the fatal branch returns
immediately with nothing consumed and nothing mutated. `png_chunk_benign_error`
is modelled as recording the benign result. -/
def png_handle_tRNS (png_ptr : PngStruct) (info_ptr : Option PngInfo)
    (length : Nat) (cursor : ChunkCursor) : HandleOutcome :=
  if png_ptr.mode.land PNG_HAVE_IHDR = 0 then
    ⟨png_ptr, info_ptr, cursor, .fatalError "missing IHDR"⟩
  else if png_ptr.mode.land PNG_HAVE_IDAT ≠ 0 then
    ⟨png_ptr, info_ptr, png_crc_finish_cursor cursor length, .benignError "out of place"⟩
  else if trns_duplicate info_ptr then
    ⟨png_ptr, info_ptr, png_crc_finish_cursor cursor length, .benignError "duplicate"⟩
  else if png_ptr.color_type = PNG_COLOR_TYPE_GRAY then
    if length ≠ 2 then
      ⟨png_ptr, info_ptr, png_crc_finish_cursor cursor length, .benignError "invalid"⟩
    else
      let buf := png_crc_read_buf cursor 2
      let c := png_crc_read_cursor cursor 2
      let png1 := { png_ptr with
        num_trans := 1
        trans_color := { png_ptr.trans_color with gray := png_get_uint_16 buf } }
      trns_commit_tail png1 info_ptr [] c
  else if png_ptr.color_type = PNG_COLOR_TYPE_RGB then
    if length ≠ 6 then
      ⟨png_ptr, info_ptr, png_crc_finish_cursor cursor length, .benignError "invalid"⟩
    else
      let buf := png_crc_read_buf cursor length
      let c := png_crc_read_cursor cursor length
      let png1 := { png_ptr with
        num_trans := 1
        trans_color := { png_ptr.trans_color with
          red := png_get_uint_16 buf
          green := png_get_uint_16 (buf.drop 2)
          blue := png_get_uint_16 (buf.drop 4) } }
      trns_commit_tail png1 info_ptr [] c
  else if png_ptr.color_type = PNG_COLOR_TYPE_PALETTE then
    if png_ptr.mode.land PNG_HAVE_PLTE = 0 then
      ⟨png_ptr, info_ptr, png_crc_finish_cursor cursor length, .benignError "out of place"⟩
    else if length > png_ptr.num_palette ∨ length > PNG_MAX_PALETTE_LENGTH ∨ length = 0 then
      ⟨png_ptr, info_ptr, png_crc_finish_cursor cursor length, .benignError "invalid"⟩
    else
      let readbuf := png_crc_read_buf cursor length
      let c := png_crc_read_cursor cursor length
      let png1 := { png_ptr with num_trans := length % 65536 }
      trns_commit_tail png1 info_ptr readbuf c
  else
    ⟨png_ptr, info_ptr, png_crc_finish_cursor cursor length, .benignError "invalid with alpha channel"⟩

/-- The condition under which the mode-specific decode of `png_handle_tRNS`
succeeds and control reaches the checksum-gated commit tail (read off the
branch structure of the source). -/
def trns_decode_ok (png : PngStruct) (length : Nat) : Prop :=
  (png.color_type = PNG_COLOR_TYPE_GRAY ∧ length = 2) ∨
  (png.color_type = PNG_COLOR_TYPE_RGB ∧ length = 6) ∨
  (png.color_type = PNG_COLOR_TYPE_PALETTE ∧ png.mode.land PNG_HAVE_PLTE ≠ 0 ∧
    1 ≤ length ∧ length ≤ png.num_palette ∧ length ≤ PNG_MAX_PALETTE_LENGTH)

/-- The commit tail never produces a fatal result. -/
theorem trns_commit_tail_not_fatal (png1 : PngStruct) (info : Option PngInfo)
    (readbuf : List Nat) (c : ChunkCursor) (m : String) :
    (trns_commit_tail png1 info readbuf c).result ≠ .fatalError m := by
  unfold trns_commit_tail
  by_cases hc : png_crc_finish_err c = true <;> simp [hc]

/-- Once the header has been seen, no branch of the handler is fatal. -/
theorem handle_not_fatal (png : PngStruct) (info : Option PngInfo) (length : Nat)
    (cur : ChunkCursor) (h1 : png.mode.land PNG_HAVE_IHDR ≠ 0) (m : String) :
    (png_handle_tRNS png info length cur).result ≠ .fatalError m := by
  unfold png_handle_tRNS
  rw [if_neg h1]
  split_ifs <;> first | apply trns_commit_tail_not_fatal | simp

/-- C1 counterexample: a Gray-mode call with a well-formed 2-byte payload but
a failing checksum is rejected, yet the session state is not left as it was
on entry — `trans_color.gray` retains the decoded value 42. -/
theorem C1_cex_crc_reject_mutates_state :
    ((png_handle_tRNS ⟨1, 0, 0, 0, ⟨0, 0, 0, 0⟩⟩ (some ⟨false, 0, [], ⟨0, 0, 0, 0⟩⟩) 2
        ⟨[0, 42], false⟩).result ≠ .ok) ∧
    (png_handle_tRNS ⟨1, 0, 0, 0, ⟨0, 0, 0, 0⟩⟩ (some ⟨false, 0, [], ⟨0, 0, 0, 0⟩⟩) 2
        ⟨[0, 42], false⟩).png_ptr ≠ ⟨1, 0, 0, 0, ⟨0, 0, 0, 0⟩⟩ := by
  decide

set_option maxHeartbeats 1000000 in
/-- C1 (amended): on every rejection path the info record is unchanged, and on
every rejection path other than checksum mismatch the session state is also
unchanged; on the checksum-mismatch rejection the handler resets `num_trans`
to 0 (leaving `mode`, `color_type`, `num_palette` intact) but does not restore
`trans_color`, so the session state is not byte-for-byte as on entry. -/
theorem C1_rejection_mutation_discipline (png : PngStruct) (info : Option PngInfo)
    (length : Nat) (cur : ChunkCursor)
    (h : (png_handle_tRNS png info length cur).result ≠ .ok) :
    (png_handle_tRNS png info length cur).info_ptr = info ∧
    ((png_handle_tRNS png info length cur).result ≠ .benignError "CRC error" →
      (png_handle_tRNS png info length cur).png_ptr = png) ∧
    ((png_handle_tRNS png info length cur).result = .benignError "CRC error" →
      (png_handle_tRNS png info length cur).png_ptr.num_trans = 0 ∧
      (png_handle_tRNS png info length cur).png_ptr.mode = png.mode ∧
      (png_handle_tRNS png info length cur).png_ptr.color_type = png.color_type ∧
      (png_handle_tRNS png info length cur).png_ptr.num_palette = png.num_palette) := by
  by_cases hc : cur.crcOk
  all_goals
    unfold png_handle_tRNS trns_commit_tail at h ⊢
  all_goals
    simp only [png_crc_finish_err, png_crc_read_cursor, hc, Bool.not_true, Bool.not_false,
      Bool.false_eq_true, Bool.true_eq_false, if_true, if_false, ite_true, ite_false,
      reduceIte] at h ⊢
  all_goals
    split_ifs at h ⊢ <;> simp_all

/-- C1 witness: a concrete rejection (Gray mode, wrong declared length) where
the theorem applies and both records are unchanged. -/
theorem C1_rejection_mutation_discipline_witness :
    (png_handle_tRNS ⟨1, 0, 0, 0, ⟨0, 0, 0, 0⟩⟩ (some ⟨false, 0, [], ⟨0, 0, 0, 0⟩⟩) 3
        ⟨[1, 2, 3], true⟩).info_ptr = some ⟨false, 0, [], ⟨0, 0, 0, 0⟩⟩ ∧
    ((png_handle_tRNS ⟨1, 0, 0, 0, ⟨0, 0, 0, 0⟩⟩ (some ⟨false, 0, [], ⟨0, 0, 0, 0⟩⟩) 3
        ⟨[1, 2, 3], true⟩).result ≠ .benignError "CRC error" →
      (png_handle_tRNS ⟨1, 0, 0, 0, ⟨0, 0, 0, 0⟩⟩ (some ⟨false, 0, [], ⟨0, 0, 0, 0⟩⟩) 3
        ⟨[1, 2, 3], true⟩).png_ptr = ⟨1, 0, 0, 0, ⟨0, 0, 0, 0⟩⟩) ∧
    ((png_handle_tRNS ⟨1, 0, 0, 0, ⟨0, 0, 0, 0⟩⟩ (some ⟨false, 0, [], ⟨0, 0, 0, 0⟩⟩) 3
        ⟨[1, 2, 3], true⟩).result = .benignError "CRC error" →
      (png_handle_tRNS ⟨1, 0, 0, 0, ⟨0, 0, 0, 0⟩⟩ (some ⟨false, 0, [], ⟨0, 0, 0, 0⟩⟩) 3
        ⟨[1, 2, 3], true⟩).png_ptr.num_trans = 0 ∧
      (png_handle_tRNS ⟨1, 0, 0, 0, ⟨0, 0, 0, 0⟩⟩ (some ⟨false, 0, [], ⟨0, 0, 0, 0⟩⟩) 3
        ⟨[1, 2, 3], true⟩).png_ptr.mode = 1 ∧
      (png_handle_tRNS ⟨1, 0, 0, 0, ⟨0, 0, 0, 0⟩⟩ (some ⟨false, 0, [], ⟨0, 0, 0, 0⟩⟩) 3
        ⟨[1, 2, 3], true⟩).png_ptr.color_type = 0 ∧
      (png_handle_tRNS ⟨1, 0, 0, 0, ⟨0, 0, 0, 0⟩⟩ (some ⟨false, 0, [], ⟨0, 0, 0, 0⟩⟩) 3
        ⟨[1, 2, 3], true⟩).png_ptr.num_palette = 0) :=
  C1_rejection_mutation_discipline ⟨1, 0, 0, 0, ⟨0, 0, 0, 0⟩⟩
    (some ⟨false, 0, [], ⟨0, 0, 0, 0⟩⟩) 3 ⟨[1, 2, 3], true⟩ (by decide)

/-- C3: the three preconditions are checked in order, each short-circuiting
the rest — missing header is fatal (`"missing IHDR"`) and is the handler's
only fatal outcome; with the header seen, image data begun yields benign
`"out of place"`; with both passed, an already-valid transparency entry in
the info record yields benign `"duplicate"`. -/
theorem C3_precondition_order (png : PngStruct) (info : Option PngInfo)
    (length : Nat) (cur : ChunkCursor) :
    (png.mode.land PNG_HAVE_IHDR = 0 →
      png_handle_tRNS png info length cur = ⟨png, info, cur, .fatalError "missing IHDR"⟩) ∧
    (∀ m, (png_handle_tRNS png info length cur).result = .fatalError m →
      m = "missing IHDR" ∧ png.mode.land PNG_HAVE_IHDR = 0) ∧
    (png.mode.land PNG_HAVE_IHDR ≠ 0 → png.mode.land PNG_HAVE_IDAT ≠ 0 →
      (png_handle_tRNS png info length cur).result = .benignError "out of place") ∧
    (png.mode.land PNG_HAVE_IHDR ≠ 0 → png.mode.land PNG_HAVE_IDAT = 0 →
      trns_duplicate info = true →
      (png_handle_tRNS png info length cur).result = .benignError "duplicate") := by
  refine ⟨?_, ?_, ?_, ?_⟩
  · intro h; simp [png_handle_tRNS, h]
  · intro m h
    by_cases h1 : png.mode.land PNG_HAVE_IHDR = 0
    · refine ⟨?_, h1⟩
      unfold png_handle_tRNS at h
      rw [if_pos h1] at h
      simpa using h.symm
    · exact absurd h (handle_not_fatal png info length cur h1 m)
  · intro h1 h2; simp [png_handle_tRNS, h1, h2]
  · intro h1 h2 h3; simp [png_handle_tRNS, h1, h2, h3]

/-- C3 witness: with no header seen the concrete call is fatal; with header
seen and image data begun it is benign `"out of place"`. -/
theorem C3_precondition_order_witness :
    png_handle_tRNS ⟨0, 0, 0, 0, ⟨0, 0, 0, 0⟩⟩ none 2 ⟨[1, 2], true⟩ =
      ⟨⟨0, 0, 0, 0, ⟨0, 0, 0, 0⟩⟩, none, ⟨[1, 2], true⟩, .fatalError "missing IHDR"⟩ :=
  (C3_precondition_order ⟨0, 0, 0, 0, ⟨0, 0, 0, 0⟩⟩ none 2 ⟨[1, 2], true⟩).1 (by decide)

/-- C6: in Gray mode any declared length other than 2 is rejected as benign
`"invalid"`, and a valid 2-byte payload `[hi, lo]` decodes as the big-endian
unsigned 16-bit value `hi * 256 + lo` stored in `trans_color.gray` (with
`num_trans` set to 1 and the call succeeding when the checksum holds). -/
theorem C6_gray_decode (png : PngStruct) (info : Option PngInfo) (cur : ChunkCursor)
    (hH : png.mode.land PNG_HAVE_IHDR ≠ 0) (hD : png.mode.land PNG_HAVE_IDAT = 0)
    (hdup : trns_duplicate info = false) (hg : png.color_type = PNG_COLOR_TYPE_GRAY) :
    (∀ length, length ≠ 2 →
      (png_handle_tRNS png info length cur).result = .benignError "invalid") ∧
    (∀ hi lo rest, cur.bytes = hi :: lo :: rest → cur.crcOk = true →
      (png_handle_tRNS png info 2 cur).result = .ok ∧
      (png_handle_tRNS png info 2 cur).png_ptr.trans_color.gray = hi * 256 + lo ∧
      (png_handle_tRNS png info 2 cur).png_ptr.num_trans = 1) := by
  constructor
  · intro length hl
    simp [png_handle_tRNS, hH, hD, hdup, hg, hl]
  · intro hi lo rest hb hc
    simp [png_handle_tRNS, hH, hD, hdup, hg, trns_commit_tail, png_crc_finish_err,
      png_crc_read_buf, png_crc_read_cursor, png_get_uint_16, hb, hc]

/-- C6 witness: the spec's example — Gray mode, payload `[0x00, 0x2A]`,
valid checksum — decodes to gray level 42; length 3 is rejected. -/
theorem C6_gray_decode_witness :
    (png_handle_tRNS ⟨1, 0, 0, 0, ⟨0, 0, 0, 0⟩⟩ none 3 ⟨[0, 42], true⟩).result =
      .benignError "invalid" ∧
    (png_handle_tRNS ⟨1, 0, 0, 0, ⟨0, 0, 0, 0⟩⟩ none 2 ⟨[0, 42], true⟩).result = .ok ∧
    (png_handle_tRNS ⟨1, 0, 0, 0, ⟨0, 0, 0, 0⟩⟩ none 2
        ⟨[0, 42], true⟩).png_ptr.trans_color.gray = 0 * 256 + 42 ∧
    (png_handle_tRNS ⟨1, 0, 0, 0, ⟨0, 0, 0, 0⟩⟩ none 2 ⟨[0, 42], true⟩).png_ptr.num_trans = 1 := by
  have h := C6_gray_decode ⟨1, 0, 0, 0, ⟨0, 0, 0, 0⟩⟩ none ⟨[0, 42], true⟩
    (by decide) (by decide) (by decide) rfl
  exact ⟨h.1 3 (by decide), h.2 0 42 [] rfl rfl⟩

/-- C7: in Rgb mode any declared length other than 6 is rejected as benign
`"invalid"`, and a valid 6-byte payload decodes as three consecutive
big-endian unsigned 16-bit values stored in red, green, blue order (with
`num_trans` set to 1 and the call succeeding when the checksum holds). -/
theorem C7_rgb_decode (png : PngStruct) (info : Option PngInfo) (cur : ChunkCursor)
    (hH : png.mode.land PNG_HAVE_IHDR ≠ 0) (hD : png.mode.land PNG_HAVE_IDAT = 0)
    (hdup : trns_duplicate info = false) (hr : png.color_type = PNG_COLOR_TYPE_RGB) :
    (∀ length, length ≠ 6 →
      (png_handle_tRNS png info length cur).result = .benignError "invalid") ∧
    (∀ b0 b1 b2 b3 b4 b5 rest, cur.bytes = b0 :: b1 :: b2 :: b3 :: b4 :: b5 :: rest →
      cur.crcOk = true →
      (png_handle_tRNS png info 6 cur).result = .ok ∧
      (png_handle_tRNS png info 6 cur).png_ptr.trans_color.red = b0 * 256 + b1 ∧
      (png_handle_tRNS png info 6 cur).png_ptr.trans_color.green = b2 * 256 + b3 ∧
      (png_handle_tRNS png info 6 cur).png_ptr.trans_color.blue = b4 * 256 + b5 ∧
      (png_handle_tRNS png info 6 cur).png_ptr.num_trans = 1) := by
  constructor
  · intro length hl
    simp [png_handle_tRNS, hH, hD, hdup, hr, hl, PNG_COLOR_TYPE_GRAY, PNG_COLOR_TYPE_RGB]
  · intro b0 b1 b2 b3 b4 b5 rest hb hc
    simp [png_handle_tRNS, hH, hD, hdup, hr, trns_commit_tail, png_crc_finish_err,
      png_crc_read_buf, png_crc_read_cursor, png_get_uint_16, hb, hc,
      PNG_COLOR_TYPE_GRAY, PNG_COLOR_TYPE_RGB]

/-- C7 witness: the spec's example — Rgb mode, payload `[0,1,0,2,0,3]`,
valid checksum — decodes to the triple (1, 2, 3); length 2 is rejected. -/
theorem C7_rgb_decode_witness :
    (png_handle_tRNS ⟨1, 2, 0, 0, ⟨0, 0, 0, 0⟩⟩ none 2 ⟨[0, 1, 0, 2, 0, 3], true⟩).result =
      .benignError "invalid" ∧
    (png_handle_tRNS ⟨1, 2, 0, 0, ⟨0, 0, 0, 0⟩⟩ none 6 ⟨[0, 1, 0, 2, 0, 3], true⟩).result =
      .ok ∧
    (png_handle_tRNS ⟨1, 2, 0, 0, ⟨0, 0, 0, 0⟩⟩ none 6
        ⟨[0, 1, 0, 2, 0, 3], true⟩).png_ptr.trans_color.red = 0 * 256 + 1 ∧
    (png_handle_tRNS ⟨1, 2, 0, 0, ⟨0, 0, 0, 0⟩⟩ none 6
        ⟨[0, 1, 0, 2, 0, 3], true⟩).png_ptr.trans_color.green = 0 * 256 + 2 ∧
    (png_handle_tRNS ⟨1, 2, 0, 0, ⟨0, 0, 0, 0⟩⟩ none 6
        ⟨[0, 1, 0, 2, 0, 3], true⟩).png_ptr.trans_color.blue = 0 * 256 + 3 ∧
    (png_handle_tRNS ⟨1, 2, 0, 0, ⟨0, 0, 0, 0⟩⟩ none 6
        ⟨[0, 1, 0, 2, 0, 3], true⟩).png_ptr.num_trans = 1 := by
  have h := C7_rgb_decode ⟨1, 2, 0, 0, ⟨0, 0, 0, 0⟩⟩ none ⟨[0, 1, 0, 2, 0, 3], true⟩
    (by decide) (by decide) (by decide) rfl
  have h2 := h.2 0 1 0 2 0 3 [] rfl rfl
  exact ⟨h.1 2 (by decide), h2.1, h2.2.1, h2.2.2.1, h2.2.2.2.1, h2.2.2.2.2⟩

/-- C8: in the gray-with-alpha and RGB-with-alpha color modes (and once the
preconditions have passed) the handler always rejects with benign
`"invalid with alpha channel"`, for every declared length and payload, with
the chunk's bytes fully drained and both records unchanged. -/
theorem C8_alpha_modes_rejected (png : PngStruct) (info : Option PngInfo)
    (length : Nat) (cur : ChunkCursor)
    (hH : png.mode.land PNG_HAVE_IHDR ≠ 0) (hD : png.mode.land PNG_HAVE_IDAT = 0)
    (hdup : trns_duplicate info = false)
    (ha : png.color_type = PNG_COLOR_TYPE_GRAY_ALPHA ∨
      png.color_type = PNG_COLOR_TYPE_RGB_ALPHA)
    (hlen : cur.bytes.length = length) :
    (png_handle_tRNS png info length cur).result = .benignError "invalid with alpha channel" ∧
    (png_handle_tRNS png info length cur).cursor.bytes = [] ∧
    (png_handle_tRNS png info length cur).png_ptr = png ∧
    (png_handle_tRNS png info length cur).info_ptr = info := by
  have hdrop : cur.bytes.drop length = [] := by
    rw [← hlen]; exact List.drop_length cur.bytes
  rcases ha with ha | ha <;>
    simp [png_handle_tRNS, hH, hD, hdup, ha, png_crc_finish_cursor, hdrop,
      PNG_COLOR_TYPE_GRAY, PNG_COLOR_TYPE_RGB, PNG_COLOR_TYPE_PALETTE,
      PNG_COLOR_TYPE_GRAY_ALPHA, PNG_COLOR_TYPE_RGB_ALPHA]

/-- C8 witness: a gray-with-alpha call with a 5-byte payload is rejected with
`"invalid with alpha channel"`, fully drained, and mutation-free. -/
theorem C8_alpha_modes_rejected_witness :
    (png_handle_tRNS ⟨1, 4, 0, 0, ⟨0, 0, 0, 0⟩⟩ none 5
        ⟨[1, 2, 3, 4, 5], true⟩).result = .benignError "invalid with alpha channel" ∧
    (png_handle_tRNS ⟨1, 4, 0, 0, ⟨0, 0, 0, 0⟩⟩ none 5
        ⟨[1, 2, 3, 4, 5], true⟩).cursor.bytes = [] ∧
    (png_handle_tRNS ⟨1, 4, 0, 0, ⟨0, 0, 0, 0⟩⟩ none 5
        ⟨[1, 2, 3, 4, 5], true⟩).png_ptr = ⟨1, 4, 0, 0, ⟨0, 0, 0, 0⟩⟩ ∧
    (png_handle_tRNS ⟨1, 4, 0, 0, ⟨0, 0, 0, 0⟩⟩ none 5
        ⟨[1, 2, 3, 4, 5], true⟩).info_ptr = none :=
  C8_alpha_modes_rejected ⟨1, 4, 0, 0, ⟨0, 0, 0, 0⟩⟩ none 5 ⟨[1, 2, 3, 4, 5], true⟩
    (by decide) (by decide) (by decide) (Or.inl rfl) (by decide)

set_option maxHeartbeats 1000000 in
/-- C2: once the mode-specific decode has succeeded, the commit is gated on
the checksum — with an invalid checksum the handler leaves the info record
untouched (in particular `valid_tRNS` is not set) and reports the benign
CRC failure; with a valid checksum it commits the decoded value into the
info record, sets `valid_tRNS`, leaves `num_trans` nonzero as the session's
tRNS-seen marker, and succeeds. -/
theorem C2_checksum_gated_commit (png : PngStruct) (i : PngInfo) (length : Nat)
    (cur : ChunkCursor)
    (hH : png.mode.land PNG_HAVE_IHDR ≠ 0) (hD : png.mode.land PNG_HAVE_IDAT = 0)
    (hdup : i.valid_tRNS = false) (hdec : trns_decode_ok png length) :
    (cur.crcOk = false →
      (png_handle_tRNS png (some i) length cur).result = .benignError "CRC error" ∧
      (png_handle_tRNS png (some i) length cur).info_ptr = some i) ∧
    (cur.crcOk = true →
      (png_handle_tRNS png (some i) length cur).result = .ok ∧
      ∃ j, (png_handle_tRNS png (some i) length cur).info_ptr = some j ∧
        j.valid_tRNS = true ∧
        j.trans_color = (png_handle_tRNS png (some i) length cur).png_ptr.trans_color ∧
        j.num_trans = (png_handle_tRNS png (some i) length cur).png_ptr.num_trans ∧
        (png_handle_tRNS png (some i) length cur).png_ptr.num_trans ≠ 0) := by
  have hdup' : trns_duplicate (some i) = false := by simp [trns_duplicate, hdup]
  rcases hdec with ⟨hct, hl⟩ | ⟨hct, hl⟩ | ⟨hct, hplte, h1, h2, h3⟩
  · subst hl
    constructor <;> intro hc <;>
      simp [png_handle_tRNS, hH, hD, hdup', hct, trns_commit_tail, png_crc_finish_err,
        png_crc_read_cursor, png_set_tRNS, hc]
  · subst hl
    constructor <;> intro hc <;>
      simp [png_handle_tRNS, hH, hD, hdup', hct, trns_commit_tail, png_crc_finish_err,
        png_crc_read_cursor, png_set_tRNS, hc,
        PNG_COLOR_TYPE_GRAY, PNG_COLOR_TYPE_RGB]
  · have hlc : ¬(length > png.num_palette ∨ length > PNG_MAX_PALETTE_LENGTH ∨ length = 0) := by
      push_neg
      exact ⟨by omega, by omega, by omega⟩
    have hmod : length % 65536 = length := by
      have h4 : length ≤ 256 := by
        have h5 := h3
        unfold PNG_MAX_PALETTE_LENGTH at h5
        omega
      omega
    constructor <;> intro hc <;>
      simp [png_handle_tRNS, hH, hD, hdup', hct, hplte, hlc, trns_commit_tail,
        png_crc_finish_err, png_crc_read_cursor, png_set_tRNS, hc, hmod,
        PNG_COLOR_TYPE_GRAY, PNG_COLOR_TYPE_RGB, PNG_COLOR_TYPE_PALETTE] <;>
      omega

/-- C2 witness: a concrete Gray-mode decode — with a failing checksum the
info record is untouched and the CRC failure is reported; with a passing
checksum the value 42 is committed and `valid_tRNS` becomes true. -/
theorem C2_checksum_gated_commit_witness :
    ((png_handle_tRNS ⟨1, 0, 0, 0, ⟨0, 0, 0, 0⟩⟩ (some ⟨false, 0, [], ⟨0, 0, 0, 0⟩⟩) 2
        ⟨[0, 42], false⟩).result = .benignError "CRC error" ∧
      (png_handle_tRNS ⟨1, 0, 0, 0, ⟨0, 0, 0, 0⟩⟩ (some ⟨false, 0, [], ⟨0, 0, 0, 0⟩⟩) 2
        ⟨[0, 42], false⟩).info_ptr = some ⟨false, 0, [], ⟨0, 0, 0, 0⟩⟩) ∧
    ((png_handle_tRNS ⟨1, 0, 0, 0, ⟨0, 0, 0, 0⟩⟩ (some ⟨false, 0, [], ⟨0, 0, 0, 0⟩⟩) 2
        ⟨[0, 42], true⟩).result = .ok ∧
      ∃ j, (png_handle_tRNS ⟨1, 0, 0, 0, ⟨0, 0, 0, 0⟩⟩ (some ⟨false, 0, [], ⟨0, 0, 0, 0⟩⟩) 2
          ⟨[0, 42], true⟩).info_ptr = some j ∧
        j.valid_tRNS = true ∧
        j.trans_color = (png_handle_tRNS ⟨1, 0, 0, 0, ⟨0, 0, 0, 0⟩⟩
          (some ⟨false, 0, [], ⟨0, 0, 0, 0⟩⟩) 2 ⟨[0, 42], true⟩).png_ptr.trans_color ∧
        j.num_trans = (png_handle_tRNS ⟨1, 0, 0, 0, ⟨0, 0, 0, 0⟩⟩
          (some ⟨false, 0, [], ⟨0, 0, 0, 0⟩⟩) 2 ⟨[0, 42], true⟩).png_ptr.num_trans ∧
        (png_handle_tRNS ⟨1, 0, 0, 0, ⟨0, 0, 0, 0⟩⟩ (some ⟨false, 0, [], ⟨0, 0, 0, 0⟩⟩) 2
          ⟨[0, 42], true⟩).png_ptr.num_trans ≠ 0) := by
  have h1 := C2_checksum_gated_commit ⟨1, 0, 0, 0, ⟨0, 0, 0, 0⟩⟩ ⟨false, 0, [], ⟨0, 0, 0, 0⟩⟩
    2 ⟨[0, 42], false⟩ (by decide) (by decide) (by decide) (Or.inl ⟨rfl, rfl⟩)
  have h2 := C2_checksum_gated_commit ⟨1, 0, 0, 0, ⟨0, 0, 0, 0⟩⟩ ⟨false, 0, [], ⟨0, 0, 0, 0⟩⟩
    2 ⟨[0, 42], true⟩ (by decide) (by decide) (by decide) (Or.inl ⟨rfl, rfl⟩)
  exact ⟨h1.1 rfl, h2.2 rfl⟩

/-- C4 counterexample: with no header seen the handler aborts fatally
without consuming the chunk's declared length — both payload bytes are still
unconsumed on return, so the claim's "including the MissingHeader fatal
path" does not hold of the code. -/
theorem C4_cex_fatal_path_not_drained :
    (png_handle_tRNS ⟨0, 0, 0, 0, ⟨0, 0, 0, 0⟩⟩ none 2 ⟨[1, 2], true⟩).result =
      .fatalError "missing IHDR" ∧
    (png_handle_tRNS ⟨0, 0, 0, 0, ⟨0, 0, 0, 0⟩⟩ none 2 ⟨[1, 2], true⟩).cursor.bytes =
      [1, 2] := by
  decide

set_option maxHeartbeats 1000000 in
/-- C4 (amended): on every benign error path the chunk's full declared length
is consumed through the cursor before the error is returned; the fatal
MissingHeader path instead aborts the session immediately with the cursor
exactly as it was on entry (nothing is drained there). -/
theorem C4_error_paths_drained (png : PngStruct) (info : Option PngInfo) (length : Nat)
    (cur : ChunkCursor) (hlen : cur.bytes.length = length) :
    (∀ m, (png_handle_tRNS png info length cur).result = .benignError m →
      (png_handle_tRNS png info length cur).cursor.bytes = []) ∧
    ((png_handle_tRNS png info length cur).result = .fatalError "missing IHDR" →
      (png_handle_tRNS png info length cur).cursor = cur) := by
  have hdrop : cur.bytes.drop length = [] := by
    rw [← hlen]; exact List.drop_length cur.bytes
  by_cases hc : cur.crcOk
  all_goals
    unfold png_handle_tRNS trns_commit_tail
  all_goals
    simp only [png_crc_finish_err, png_crc_read_cursor, png_crc_finish_cursor, hc,
      Bool.not_true, Bool.not_false, Bool.false_eq_true, Bool.true_eq_false,
      if_true, if_false, ite_true, ite_false, reduceIte]
  all_goals
    split_ifs <;> simp_all [List.drop_drop]

/-- C4 witness: a concrete benign rejection (gray-with-alpha mode) consumes
all five declared bytes. -/
theorem C4_error_paths_drained_witness :
    (∀ m, (png_handle_tRNS ⟨1, 4, 0, 0, ⟨0, 0, 0, 0⟩⟩ none 5
        ⟨[1, 2, 3, 4, 5], true⟩).result = .benignError m →
      (png_handle_tRNS ⟨1, 4, 0, 0, ⟨0, 0, 0, 0⟩⟩ none 5
        ⟨[1, 2, 3, 4, 5], true⟩).cursor.bytes = []) ∧
    ((png_handle_tRNS ⟨1, 4, 0, 0, ⟨0, 0, 0, 0⟩⟩ none 5
        ⟨[1, 2, 3, 4, 5], true⟩).result = .fatalError "missing IHDR" →
      (png_handle_tRNS ⟨1, 4, 0, 0, ⟨0, 0, 0, 0⟩⟩ none 5
        ⟨[1, 2, 3, 4, 5], true⟩).cursor = ⟨[1, 2, 3, 4, 5], true⟩) :=
  C4_error_paths_drained ⟨1, 4, 0, 0, ⟨0, 0, 0, 0⟩⟩ none 5 ⟨[1, 2, 3, 4, 5], true⟩ rfl

set_option maxHeartbeats 1000000 in
/-- C5: in Palette mode (preconditions passed) the handler requires the
palette to have been seen (else benign `"out of place"`), rejects any
declared length equal to 0 or above `min num_palette 256` as benign
`"invalid"` (so with a declared palette size of 0 every length is rejected),
and on success reads exactly the declared length of bytes, which become the
committed palette alpha sequence of that length. -/
theorem C5_palette_decode (png : PngStruct) (i : PngInfo) (length : Nat)
    (cur : ChunkCursor)
    (hH : png.mode.land PNG_HAVE_IHDR ≠ 0) (hD : png.mode.land PNG_HAVE_IDAT = 0)
    (hdup : i.valid_tRNS = false) (hpal : png.color_type = PNG_COLOR_TYPE_PALETTE)
    (hlen : cur.bytes.length = length) :
    (png.mode.land PNG_HAVE_PLTE = 0 →
      (png_handle_tRNS png (some i) length cur).result = .benignError "out of place") ∧
    (png.mode.land PNG_HAVE_PLTE ≠ 0 →
      length = 0 ∨ length > min png.num_palette PNG_MAX_PALETTE_LENGTH →
      (png_handle_tRNS png (some i) length cur).result = .benignError "invalid") ∧
    (png.mode.land PNG_HAVE_PLTE ≠ 0 → png.num_palette = 0 →
      (png_handle_tRNS png (some i) length cur).result = .benignError "invalid") ∧
    (png.mode.land PNG_HAVE_PLTE ≠ 0 → 1 ≤ length →
      length ≤ min png.num_palette PNG_MAX_PALETTE_LENGTH → cur.crcOk = true →
      (png_handle_tRNS png (some i) length cur).result = .ok ∧
      (png_handle_tRNS png (some i) length cur).cursor.bytes = [] ∧
      ∃ j, (png_handle_tRNS png (some i) length cur).info_ptr = some j ∧
        j.trans_alpha = cur.bytes ∧ j.trans_alpha.length = length ∧
        j.num_trans = length ∧ j.valid_tRNS = true) := by
  have hdup' : trns_duplicate (some i) = false := by simp [trns_duplicate, hdup]
  have hPM : PNG_MAX_PALETTE_LENGTH = 256 := rfl
  refine ⟨?_, ?_, ?_, ?_⟩
  · intro hp
    simp [png_handle_tRNS, hH, hD, hdup', hpal, hp,
      PNG_COLOR_TYPE_GRAY, PNG_COLOR_TYPE_RGB, PNG_COLOR_TYPE_PALETTE]
  · intro hp hl
    have hlc : length > png.num_palette ∨ length > PNG_MAX_PALETTE_LENGTH ∨ length = 0 := by
      rw [hPM]; omega
    simp [png_handle_tRNS, hH, hD, hdup', hpal, hp, hlc,
      PNG_COLOR_TYPE_GRAY, PNG_COLOR_TYPE_RGB, PNG_COLOR_TYPE_PALETTE]
  · intro hp hz
    have hlc : length > png.num_palette ∨ length > PNG_MAX_PALETTE_LENGTH ∨ length = 0 := by
      rw [hPM]; omega
    simp [png_handle_tRNS, hH, hD, hdup', hpal, hp, hlc,
      PNG_COLOR_TYPE_GRAY, PNG_COLOR_TYPE_RGB, PNG_COLOR_TYPE_PALETTE]
  · intro hp h1 h2 hc
    have hlc : ¬(length > png.num_palette ∨ length > PNG_MAX_PALETTE_LENGTH ∨ length = 0) := by
      rw [hPM]; omega
    have hmod : length % 65536 = length := by
      rw [hPM] at h2; omega
    have htake : cur.bytes.take length = cur.bytes := by
      rw [← hlen]; exact List.take_length cur.bytes
    simp [png_handle_tRNS, hH, hD, hdup', hpal, hp, hlc, trns_commit_tail,
      png_crc_finish_err, png_crc_read_cursor, png_crc_read_buf, png_crc_finish_cursor,
      png_set_tRNS, hc, hmod, htake, hlen,
      PNG_COLOR_TYPE_GRAY, PNG_COLOR_TYPE_RGB, PNG_COLOR_TYPE_PALETTE]

/-- C5 witness: the spec's example — palette seen, declared palette size 4,
declared length 3, payload `[10, 20, 30]`, valid checksum — commits
`PaletteAlphas [10, 20, 30]` of length 3. -/
theorem C5_palette_decode_witness :
    (png_handle_tRNS ⟨3, 3, 4, 0, ⟨0, 0, 0, 0⟩⟩ (some ⟨false, 0, [], ⟨0, 0, 0, 0⟩⟩) 3
        ⟨[10, 20, 30], true⟩).result = .ok ∧
    (png_handle_tRNS ⟨3, 3, 4, 0, ⟨0, 0, 0, 0⟩⟩ (some ⟨false, 0, [], ⟨0, 0, 0, 0⟩⟩) 3
        ⟨[10, 20, 30], true⟩).cursor.bytes = [] ∧
    ∃ j, (png_handle_tRNS ⟨3, 3, 4, 0, ⟨0, 0, 0, 0⟩⟩ (some ⟨false, 0, [], ⟨0, 0, 0, 0⟩⟩) 3
        ⟨[10, 20, 30], true⟩).info_ptr = some j ∧
      j.trans_alpha = [10, 20, 30] ∧ j.trans_alpha.length = 3 ∧
      j.num_trans = 3 ∧ j.valid_tRNS = true := by
  have h := C5_palette_decode ⟨3, 3, 4, 0, ⟨0, 0, 0, 0⟩⟩ ⟨false, 0, [], ⟨0, 0, 0, 0⟩⟩ 3
    ⟨[10, 20, 30], true⟩ (by decide) (by decide) (by decide) rfl rfl
  exact h.2.2.2 (by decide) (by decide) (by decide) rfl

/-- C9: evaluation of the handler at the successful palette-mode commit the
claim is about — the commit does occur here (the ownership/aliasing defect
itself is a property of the C pointers, outside this embedding; see the
source's own TODO comment at the `png_set_tRNS` call). -/
theorem C9_palette_commit_eval :
    (png_handle_tRNS ⟨3, 3, 4, 0, ⟨0, 0, 0, 0⟩⟩ (some ⟨false, 0, [], ⟨0, 0, 0, 0⟩⟩) 3
        ⟨[10, 20, 30], true⟩).result = .ok ∧
    (png_handle_tRNS ⟨3, 3, 4, 0, ⟨0, 0, 0, 0⟩⟩ (some ⟨false, 0, [], ⟨0, 0, 0, 0⟩⟩) 3
        ⟨[10, 20, 30], true⟩).info_ptr =
      some ⟨true, 3, [10, 20, 30], ⟨0, 0, 0, 0⟩⟩ := by
  decide

set_option maxHeartbeats 1000000 in
/-- C10: with a null info record the duplicate rejection can never fire —
no call with `info_ptr = none` returns benign `"duplicate"` — and such a
call proceeds to decode and mutate the session state (`num_trans`,
`trans_color`) regardless of any previously processed transparency chunk. -/
theorem C10_null_info_skips_duplicate (png : PngStruct) (length : Nat) (cur : ChunkCursor) :
    ((png_handle_tRNS png none length cur).result ≠ .benignError "duplicate") ∧
    (png.mode.land PNG_HAVE_IHDR ≠ 0 → png.mode.land PNG_HAVE_IDAT = 0 →
      png.color_type = PNG_COLOR_TYPE_GRAY → cur.crcOk = true →
      ∀ hi lo rest, cur.bytes = hi :: lo :: rest →
        (png_handle_tRNS png none 2 cur).result = .ok ∧
        (png_handle_tRNS png none 2 cur).png_ptr.num_trans = 1 ∧
        (png_handle_tRNS png none 2 cur).png_ptr.trans_color.gray = hi * 256 + lo) := by
  constructor
  · by_cases hc : cur.crcOk
    all_goals
      unfold png_handle_tRNS trns_commit_tail
    all_goals
      simp only [png_crc_finish_err, png_crc_read_cursor, hc, Bool.not_true, Bool.not_false,
        Bool.false_eq_true, Bool.true_eq_false, if_true, if_false, ite_true, ite_false,
        reduceIte, trns_duplicate]
    all_goals
      split_ifs <;> simp_all
  · intro hH hD hg hc hi lo rest hb
    have hdup' : trns_duplicate (none : Option PngInfo) = false := rfl
    simp [png_handle_tRNS, hH, hD, hdup', hg, trns_commit_tail, png_crc_finish_err,
      png_crc_read_buf, png_crc_read_cursor, png_get_uint_16, hb, hc]

/-- C10 witness: a session whose state already records a processed
transparency chunk (`num_trans = 1`, `trans_color.gray = 7`) is decoded
again and overwritten when the info record is null. -/
theorem C10_null_info_skips_duplicate_witness :
    (png_handle_tRNS ⟨1, 0, 0, 1, ⟨0, 0, 0, 7⟩⟩ none 2 ⟨[0, 42], true⟩).result = .ok ∧
    (png_handle_tRNS ⟨1, 0, 0, 1, ⟨0, 0, 0, 7⟩⟩ none 2
      ⟨[0, 42], true⟩).png_ptr.num_trans = 1 ∧
    (png_handle_tRNS ⟨1, 0, 0, 1, ⟨0, 0, 0, 7⟩⟩ none 2
      ⟨[0, 42], true⟩).png_ptr.trans_color.gray = 0 * 256 + 42 := by
  have h := C10_null_info_skips_duplicate ⟨1, 0, 0, 1, ⟨0, 0, 0, 7⟩⟩ 2 ⟨[0, 42], true⟩
  exact h.2 (by decide) (by decide) rfl rfl 0 42 [] rfl
